import Mathlib

/-!
# fakeflock.c : flock-to-fcntl translation and filesystem capacity override

A shallow embedding of `src/fakeflock.c`.

* C `int` values are integers (`Int`); the bitwise operators `&`, `|`, `~` act
  on the 32-bit two's complement pattern of their operands (`band`, `bor`,
  `bnot` below).
* The calls the program makes into the C library and the kernel are taken from
  an oracle that gives, for each call, its return value and the value of
  `errno` after it.  Every call issued is recorded, in order, in a list of
  events, so that a theorem can say which calls were (or were not) made.
* `perror` is recorded as an event and may change `errno`: the source calls it
  between the failing call and the `return`, so the oracle also gives the value
  of `errno` after `perror`.  `printf` is recorded as an event; `errno` after it
  is either overwritten (line 117) or part of the oracle answer of the call that
  follows it (line 81).
* The numeric constants are those of the Linux headers on x86 and x86-64
  (`<sys/file.h>`, `<fcntl.h>`, `<errno.h>`, `<limits.h>`), the platforms named
  by the build lines at the top of the source.
-/

namespace FakeFlock

/-! ## Constants of the system headers -/

def LOCK_SH : Int := 1
def LOCK_EX : Int := 2
def LOCK_NB : Int := 4
def LOCK_UN : Int := 8

def F_RDLCK : Int := 0
def F_WRLCK : Int := 1
def F_UNLCK : Int := 2

def SEEK_SET : Int := 0

def O_RDONLY : Int := 0
def O_WRONLY : Int := 1
def O_RDWR : Int := 2
def O_ACCMODE : Int := 3

def F_OFD_SETLK : Int := 37
def F_OFD_SETLKW : Int := 38

def EAGAIN : Int := 11
def EACCES : Int := 13
def EINVAL : Int := 22
def ENOENT : Int := 2
def ENOLCK : Int := 37
def EWOULDBLOCK : Int := EAGAIN

def INT_MAX : Nat := 2 ^ 31 - 1

/-! ## 32-bit two's complement -/

/-- Bit pattern of a C `int`, as a number below `2 ^ 32`. -/
def toU32 (x : Int) : Nat := (x % 2 ^ 32).toNat

/-- The C `int` with the given 32-bit pattern. -/
def ofU32 (n : Nat) : Int := if n < 2 ^ 31 then (n : Int) else (n : Int) - 2 ^ 32

/-- C `a & b` on `int`. -/
def band (a b : Int) : Int := ofU32 (toU32 a &&& toU32 b)

/-- C `a | b` on `int`. -/
def bor (a b : Int) : Int := ofU32 (toU32 a ||| toU32 b)

/-- C `~a` on `int`. -/
def bnot (a : Int) : Int := ofU32 (2 ^ 32 - 1 - toU32 a)

/-! ## Lock translator (`flock`, lines 35-91) -/

/-- The C `struct flock` handed to `fcntl`. -/
structure flock_t where
  l_type : Int
  l_whence : Int
  l_start : Int
  l_len : Int
  l_pid : Int
  deriving DecidableEq

/-- Return value of a library call together with `errno` after the call. -/
structure SysRet where
  ret : Int
  errno : Int
  deriving DecidableEq

/-- Answers of the world around `flock`: the `F_GETFL` query on a descriptor,
the record-lock request `fcntl(fd, req, &lock)`, and `perror(s)`, which is
given `errno` before the call and answers `errno` after it. -/
structure Kernel where
  getfl : Int → SysRet
  setlk : Int → Int → flock_t → SysRet
  perror : String → Int → Int

/-- What `flock` does to the outside world, in program order. -/
inductive Event where
  /-- The call `fcntl(fd, F_GETFL, NULL)`. -/
  | fcntl_getfl (fd : Int)
  /-- The trace line of lines 76-78, with the values handed to `printf`
  (`none` is a null `char *`). -/
  | printf (fd : Int) (op_str : Option String) (nb_str : String)
      (mode_str : Option String) (req_str : Option String) (type_str : Option String)
  /-- The call `fcntl(fd, req, &lock)`. -/
  | fcntl_lock (fd : Int) (req : Int) (lock : flock_t)
  /-- The call `perror(s)` made while `errno` had the given value. -/
  | perror (s : String) (errno : Int)
  deriving DecidableEq

/-- Outcome of one `flock` call as its caller sees it. -/
structure FlockResult where
  ret : Int
  errno : Int
  events : List Event
  deriving DecidableEq

/-- Lines 43-50: the `switch` on the operation code with `LOCK_NB` masked out.
`none` is the `default:` branch. -/
def selectType (operation : Int) : Option Int :=
  if operation = LOCK_SH then some F_RDLCK
  else if operation = LOCK_EX then some F_WRLCK
  else if operation = LOCK_UN then some F_UNLCK
  else none

/-- Lines 54-58: adjust the lock type to the access mode of the descriptor. -/
def tieBreak (l_type open_mode : Int) : Int :=
  if l_type = F_RDLCK ∧ open_mode = O_WRONLY then F_WRLCK
  else if l_type = F_WRLCK ∧ open_mode = O_RDONLY then F_RDLCK
  else l_type

/-- Lines 63-65. -/
def opStr (operation : Int) : Option String :=
  if operation = LOCK_SH then some "LOCK_SH"
  else if operation = LOCK_EX then some "LOCK_EX"
  else if operation = LOCK_UN then some "LOCK_UN"
  else none

/-- Lines 66-68. -/
def reqStr (req : Int) : Option String :=
  if req = F_OFD_SETLK then some "F_OFD_SETLK"
  else if req = F_OFD_SETLKW then some "F_OFD_SETLKW"
  else none

/-- Lines 69-71. -/
def typeStr (l_type : Int) : Option String :=
  if l_type = F_RDLCK then some "F_RDLCK"
  else if l_type = F_WRLCK then some "F_WRLCK"
  else if l_type = F_UNLCK then some "F_UNLCK"
  else none

/-- Lines 72-74. -/
def modeStr (open_mode : Int) : Option String :=
  if open_mode = O_RDONLY then some "O_RDONLY"
  else if open_mode = O_WRONLY then some "O_WRONLY"
  else if open_mode = O_RDWR then some "O_RDWR"
  else none

/-- The function `flock(fd, operation)`; `errno0` is `errno` on entry. -/
def flock (k : Kernel) (fd operation : Int) (_errno0 : Int) : FlockResult :=
  let nonblock := band operation LOCK_NB
  let operation := band operation (bnot LOCK_NB)
  match selectType operation with
  | none => { ret := -1, errno := EINVAL, events := [] }
  | some ty =>
    let g := k.getfl fd
    let open_mode := band g.ret O_ACCMODE
    let lock : flock_t :=
      { l_type := tieBreak ty open_mode, l_whence := SEEK_SET,
        l_start := 0, l_len := 0, l_pid := 0 }
    let req := if nonblock ≠ 0 then F_OFD_SETLK else F_OFD_SETLKW
    let trace :=
      Event.printf fd (opStr operation) (if nonblock ≠ 0 then "|LOCK_NB" else "")
        (modeStr open_mode) (reqStr req) (typeStr lock.l_type)
    let r := k.setlk fd req lock
    if r.ret < 0 then
      let err := r.errno
      let errno1 := k.perror "fcntl" err
      { ret := -1,
        errno := if nonblock ≠ 0 ∧ (err = EAGAIN ∨ err = EACCES) then EWOULDBLOCK else errno1,
        events := [Event.fcntl_getfl fd, trace, Event.fcntl_lock fd req lock,
                   Event.perror "fcntl" err] }
    else
      { ret := 0, errno := r.errno,
        events := [Event.fcntl_getfl fd, trace, Event.fcntl_lock fd req lock] }

/-- The record-lock requests among a list of events: descriptor, request
variant and lock description of each, in order. -/
def lockRequests : List Event → List (Int × Int × flock_t)
  | [] => []
  | Event.fcntl_lock fd req lock :: es => (fd, req, lock) :: lockRequests es
  | _ :: es => lockRequests es

/-- A `perror` that leaves `errno` as it was. -/
def perrorQuiet : String → Int → Int := fun _ e => e

/-- A `perror` that leaves the given value in `errno`, as it does when its own
output fails. -/
def perrorSets (e : Int) : String → Int → Int := fun _ _ => e

/-- A kernel whose record-lock request succeeds and whose `F_GETFL` answers
the given flags. -/
def kernelOk (flags : Int) : Kernel :=
  { getfl := fun _ => ⟨flags, 0⟩, setlk := fun _ _ _ => ⟨0, 0⟩, perror := perrorQuiet }

/-- A kernel whose record-lock request fails with the given error. -/
def kernelFail (flags err : Int) : Kernel :=
  { getfl := fun _ => ⟨flags, 0⟩, setlk := fun _ _ _ => ⟨-1, err⟩, perror := perrorQuiet }

/-- A kernel whose record-lock request fails with `err` and whose `perror`
leaves `perr` in `errno`. -/
def kernelFailPerror (flags err perr : Int) : Kernel :=
  { getfl := fun _ => ⟨flags, 0⟩, setlk := fun _ _ _ => ⟨-1, err⟩, perror := perrorSets perr }

/-- The operation codes `flock` accepts: with `LOCK_NB` masked out the code
is exactly `LOCK_SH`, `LOCK_EX` or `LOCK_UN`. -/
def ValidOp (operation : Int) : Prop :=
  band operation (bnot LOCK_NB) = LOCK_SH ∨ band operation (bnot LOCK_NB) = LOCK_EX
    ∨ band operation (bnot LOCK_NB) = LOCK_UN

instance (operation : Int) : Decidable (ValidOp operation) := by
  unfold ValidOp; infer_instance

/-! ## Capacity reporter (`LIMITSIZE` and its six users, lines 104-148) -/

/-- The fields of `struct statvfs`, `struct statvfs64`, `struct statfs` and
`struct statfs64` that matter here.  `f_frsize` is the field the source calls
the block size; `f_bsize` and `other` (every remaining field) are never
written by the program. -/
structure statbuf where
  f_bsize : Nat
  f_frsize : Nat
  f_blocks : Nat
  f_bfree : Nat
  f_bavail : Nat
  other : List Nat
  deriving DecidableEq

/-- The two builds of the source: `gcc -m32` and plain `gcc` on x86-64. -/
inductive Abi where
  | m32
  | m64
  deriving DecidableEq

/-- Bits of `unsigned long` and `__fsword_t`, the types of `f_frsize`. -/
def Abi.wordBits : Abi → Nat
  | .m32 => 32
  | .m64 => 64

/-- Storing a value in an integer field of `w` bits keeps it modulo `2 ^ w`. -/
def wrap (w v : Nat) : Nat := v % 2 ^ w

/-- What the genuine statistics function leaves behind: return value, `errno`
and the result buffer. -/
structure StatOutcome where
  ret : Int
  errno : Int
  buf : statbuf
  deriving DecidableEq

/-- Diagnostics of a statistics override. -/
inductive StatEvent where
  /-- The call `perror(__func__)` made while `errno` had the given value. -/
  | perror (func : String) (errno : Int)
  /-- The trace line of lines 113-116 with its five arguments. -/
  | printf (func : String) (bfree bavail blocks frsize : Int)
  deriving DecidableEq

/-- Outcome of a statistics override as its caller sees it. -/
structure StatResult where
  ret : Int
  errno : Int
  buf : statbuf
  events : List StatEvent
  deriving DecidableEq

/-- Line 112: `((int64_t)INT_MAX << 9) / buf->f_frsize`, the shift taken in
64 bits. -/
def blockCount (f_frsize : Nat) : Nat := ((INT_MAX <<< 9) % 2 ^ 64) / f_frsize

/-- The C cast `(int)x` of an unsigned field value. -/
def toInt (x : Nat) : Int := ofU32 (x % 2 ^ 32)

/-- The macro `LIMITSIZE` (lines 104-118).  `func` is `__func__`, `wFr` and
`wBlk` are the widths in bits of `f_frsize` and of the block-count fields,
`perror` answers `errno` after `perror(s)` from `s` and `errno` before it,
`f` is the genuine function found by `dlsym(RTLD_NEXT, __func__)`, which is
given the argument, the caller's buffer and `errno` on entry. -/
def LIMITSIZE {α : Type} (func : String) (wFr wBlk : Nat) (perror : String → Int → Int)
    (f : α → statbuf → Int → StatOutcome) (arg : α) (buf : statbuf) (errno0 : Int) :
    StatResult :=
  let o := f arg buf errno0
  if o.errno ≠ 75 ∧ o.ret ≠ 0 then
    { ret := o.ret, errno := perror func o.errno, buf := o.buf,
      events := [StatEvent.perror func o.errno] }
  else
    let frsize := wrap wFr 4096
    let blocks := wrap wBlk (blockCount frsize)
    let bavail := wrap wBlk blocks
    let bfree := wrap wBlk bavail
    let b : statbuf :=
      { o.buf with f_frsize := frsize, f_blocks := blocks, f_bavail := bavail,
                   f_bfree := bfree }
    { ret := 0, errno := 0, buf := b,
      events := [StatEvent.printf func (toInt b.f_bfree) (toInt b.f_bavail)
                   (toInt b.f_blocks) (toInt b.f_frsize)] }

/-- Lines 120-123; `fsblkcnt_t` is as wide as `unsigned long`. -/
def statvfs (abi : Abi) (perror : String → Int → Int)
    (f : String → statbuf → Int → StatOutcome) (arg : String)
    (buf : statbuf) (errno0 : Int) : StatResult :=
  LIMITSIZE "statvfs" abi.wordBits abi.wordBits perror f arg buf errno0

/-- Lines 125-128; `fsblkcnt64_t` has 64 bits. -/
def statvfs64 (abi : Abi) (perror : String → Int → Int)
    (f : String → statbuf → Int → StatOutcome) (arg : String)
    (buf : statbuf) (errno0 : Int) : StatResult :=
  LIMITSIZE "statvfs64" abi.wordBits 64 perror f arg buf errno0

/-- Lines 130-133. -/
def fstatvfs64 (abi : Abi) (perror : String → Int → Int)
    (f : Int → statbuf → Int → StatOutcome) (arg : Int)
    (buf : statbuf) (errno0 : Int) : StatResult :=
  LIMITSIZE "fstatvfs64" abi.wordBits 64 perror f arg buf errno0

/-- Lines 135-138. -/
def statfs (abi : Abi) (perror : String → Int → Int)
    (f : String → statbuf → Int → StatOutcome) (arg : String)
    (buf : statbuf) (errno0 : Int) : StatResult :=
  LIMITSIZE "statfs" abi.wordBits abi.wordBits perror f arg buf errno0

/-- Lines 140-143. -/
def statfs64 (abi : Abi) (perror : String → Int → Int)
    (f : String → statbuf → Int → StatOutcome) (arg : String)
    (buf : statbuf) (errno0 : Int) : StatResult :=
  LIMITSIZE "statfs64" abi.wordBits 64 perror f arg buf errno0

/-- Lines 145-148. -/
def fstatfs64 (abi : Abi) (perror : String → Int → Int)
    (f : Int → statbuf → Int → StatOutcome) (arg : Int)
    (buf : statbuf) (errno0 : Int) : StatResult :=
  LIMITSIZE "fstatfs64" abi.wordBits 64 perror f arg buf errno0

/-- The six overridden entry points. -/
inductive StatFn where
  | statvfs
  | statvfs64
  | fstatvfs64
  | statfs
  | statfs64
  | fstatfs64
  deriving DecidableEq

/-- Type of the first argument: a path for the by-path calls, a descriptor for
the by-descriptor ones. -/
def StatFn.Arg : StatFn → Type
  | .statvfs => String
  | .statvfs64 => String
  | .fstatvfs64 => Int
  | .statfs => String
  | .statfs64 => String
  | .fstatfs64 => Int

/-- Calling one of the six entry points. -/
def StatFn.call : (fn : StatFn) → Abi → (String → Int → Int) →
    (fn.Arg → statbuf → Int → StatOutcome) → fn.Arg → statbuf → Int → StatResult
  | .statvfs => FakeFlock.statvfs
  | .statvfs64 => FakeFlock.statvfs64
  | .fstatvfs64 => FakeFlock.fstatvfs64
  | .statfs => FakeFlock.statfs
  | .statfs64 => FakeFlock.statfs64
  | .fstatfs64 => FakeFlock.fstatfs64

/-- A genuine statistics function that ignores its inputs and leaves the given
outcome. -/
def genuineConst {α : Type} (o : StatOutcome) : α → statbuf → Int → StatOutcome :=
  fun _ _ _ => o

/-- A buffer as a large filesystem would fill it: 128 KiB blocks, `2 ^ 33`
of them. -/
def bigBuf : statbuf :=
  { f_bsize := 131072, f_frsize := 131072, f_blocks := 2 ^ 33, f_bfree := 2 ^ 32,
    f_bavail := 2 ^ 32, other := [] }

/-- The all-zero buffer. -/
def zeroBuf : statbuf :=
  { f_bsize := 0, f_frsize := 0, f_blocks := 0, f_bfree := 0, f_bavail := 0, other := [] }

/-! ## Facts about the 32-bit helpers -/

theorem toU32_lt (x : Int) : toU32 x < 2 ^ 32 := by
  unfold toU32
  have h1 : (0 : Int) ≤ x % 2 ^ 32 := Int.emod_nonneg _ (by norm_num)
  have h2 : x % 2 ^ 32 < 2 ^ 32 := Int.emod_lt_of_pos _ (by norm_num)
  omega

theorem toU32_ofU32 (n : Nat) (h : n < 2 ^ 32) : toU32 (ofU32 n) = n := by
  unfold toU32 ofU32
  split <;> omega

/-- Setting the `LOCK_NB` bit and then masking it out is the same as masking
it out. -/
theorem band_bor_LOCK_NB (op : Int) :
    band (bor op LOCK_NB) (bnot LOCK_NB) = band op (bnot LOCK_NB) := by
  have hlt := toU32_lt op
  have h4 : toU32 LOCK_NB = 4 := by decide
  have hor : toU32 op ||| 4 < 2 ^ 32 := Nat.or_lt_two_pow hlt (by norm_num)
  unfold band bor
  rw [h4, toU32_ofU32 _ hor]
  congr 1
  apply Nat.eq_of_testBit_eq
  intro i
  simp only [Nat.testBit_and, Nat.testBit_or]
  by_cases hi : i = 2
  · subst hi
    have : (toU32 (bnot LOCK_NB)).testBit 2 = false := by decide
    simp [this]
  · have : (4 : Nat).testBit i = false := by
      have h2 : (2 ^ 2 : Nat).testBit i = decide (2 = i) := Nat.testBit_two_pow
      simp only [show (2 : Nat) ^ 2 = 4 by norm_num] at h2
      rw [h2]
      simpa using fun h => hi h.symm
    simp [this]

/-! ## The lock translator -/

/-- A code with a bit set outside `LOCK_SH|LOCK_EX|LOCK_NB|LOCK_UN` is, with
`LOCK_NB` masked out, none of `LOCK_SH`, `LOCK_EX`, `LOCK_UN`. -/
theorem further_bits_not_valid (operation : Int)
    (h : band operation (bnot (bor (bor LOCK_SH LOCK_EX) (bor LOCK_NB LOCK_UN))) ≠ 0) :
    band operation (bnot LOCK_NB) ≠ LOCK_SH ∧ band operation (bnot LOCK_NB) ≠ LOCK_EX
      ∧ band operation (bnot LOCK_NB) ≠ LOCK_UN := by
  have hlt := toU32_lt operation
  have hm : toU32 (bnot (bor (bor LOCK_SH LOCK_EX) (bor LOCK_NB LOCK_UN)))
      = toU32 (bnot LOCK_NB) &&& toU32 (bnot (bor (bor LOCK_SH LOCK_EX) (bor LOCK_NB LOCK_UN))) := by
    decide
  have key : ∀ c : Int, band operation (bnot LOCK_NB) = c →
      toU32 c &&& toU32 (bnot (bor (bor LOCK_SH LOCK_EX) (bor LOCK_NB LOCK_UN))) = 0 → False := by
    intro c hc hz
    apply h
    have h1 : toU32 operation &&& toU32 (bnot LOCK_NB) < 2 ^ 32 :=
      lt_of_le_of_lt Nat.and_le_left hlt
    have h2 : toU32 c = toU32 operation &&& toU32 (bnot LOCK_NB) := by
      rw [← hc]
      exact toU32_ofU32 _ h1
    unfold band
    rw [hm, ← Nat.and_assoc, ← h2, hz]
    rfl
  exact ⟨fun e => key _ e (by decide), fun e => key _ e (by decide), fun e => key _ e (by decide)⟩

/-- A valid operation code selects a lock type. -/
theorem selectType_of_valid {operation : Int} (h : ValidOp operation) :
    ∃ ty, selectType (band operation (bnot LOCK_NB)) = some ty := by
  rcases h with h | h | h <;> rw [h] <;> simp [selectType, LOCK_SH, LOCK_EX, LOCK_UN]

/-- The record-lock requests of a call whose operation code selects `ty`. -/
theorem flock_lockRequests (k : Kernel) (fd operation errno0 ty : Int)
    (h : selectType (band operation (bnot LOCK_NB)) = some ty) :
    lockRequests (flock k fd operation errno0).events
      = [(fd, if band operation LOCK_NB ≠ 0 then F_OFD_SETLK else F_OFD_SETLKW,
          { l_type := tieBreak ty (band (k.getfl fd).ret O_ACCMODE), l_whence := SEEK_SET,
            l_start := 0, l_len := 0, l_pid := 0 })] := by
  simp only [flock, h]
  generalize (if band operation LOCK_NB ≠ 0 then F_OFD_SETLK else F_OFD_SETLKW) = req
  split <;> rfl

/-- Return value and `errno` of a call whose operation code selects `ty`, in
terms of the answer of the record-lock request it issues and of what `perror`
leaves in `errno`. -/
theorem flock_outcome (k : Kernel) (fd operation errno0 ty : Int)
    (h : selectType (band operation (bnot LOCK_NB)) = some ty) :
    (flock k fd operation errno0).ret
        = (if (k.setlk fd (if band operation LOCK_NB ≠ 0 then F_OFD_SETLK else F_OFD_SETLKW)
            { l_type := tieBreak ty (band (k.getfl fd).ret O_ACCMODE), l_whence := SEEK_SET,
              l_start := 0, l_len := 0, l_pid := 0 }).ret < 0 then -1 else 0)
    ∧ ((k.setlk fd (if band operation LOCK_NB ≠ 0 then F_OFD_SETLK else F_OFD_SETLKW)
            { l_type := tieBreak ty (band (k.getfl fd).ret O_ACCMODE), l_whence := SEEK_SET,
              l_start := 0, l_len := 0, l_pid := 0 }).ret < 0 →
        (flock k fd operation errno0).errno
          = (if band operation LOCK_NB ≠ 0
                ∧ ((k.setlk fd (if band operation LOCK_NB ≠ 0 then F_OFD_SETLK else F_OFD_SETLKW)
                    { l_type := tieBreak ty (band (k.getfl fd).ret O_ACCMODE),
                      l_whence := SEEK_SET, l_start := 0, l_len := 0, l_pid := 0 }).errno = EAGAIN
                  ∨ (k.setlk fd (if band operation LOCK_NB ≠ 0 then F_OFD_SETLK else F_OFD_SETLKW)
                    { l_type := tieBreak ty (band (k.getfl fd).ret O_ACCMODE),
                      l_whence := SEEK_SET, l_start := 0, l_len := 0, l_pid := 0 }).errno = EACCES)
             then EWOULDBLOCK
             else k.perror "fcntl"
                  (k.setlk fd (if band operation LOCK_NB ≠ 0 then F_OFD_SETLK else F_OFD_SETLKW)
                    { l_type := tieBreak ty (band (k.getfl fd).ret O_ACCMODE),
                      l_whence := SEEK_SET, l_start := 0, l_len := 0, l_pid := 0 }).errno)) := by
  simp only [flock, h]
  generalize (if band operation LOCK_NB ≠ 0 then F_OFD_SETLK else F_OFD_SETLKW) = req
  split
  · exact ⟨rfl, fun _ => rfl⟩
  · next hn => exact ⟨rfl, fun hlt => absurd hlt hn⟩

/-- A call whose operation code selects nothing issues nothing. -/
theorem flock_events_none (k : Kernel) (fd operation errno0 : Int)
    (h : selectType (band operation (bnot LOCK_NB)) = none) :
    (flock k fd operation errno0).events = [] := by
  simp only [flock, h]

/-- For a valid request: the one record-lock request issued, and the return
value and `errno` in terms of its answer.  After a negative answer `errno` is
`EWOULDBLOCK` on the remapped errors and otherwise what `perror` left. -/
theorem flock_request_outcome (k : Kernel) (fd operation errno0 : Int)
    (h : ValidOp operation) :
    ∃ req lock, lockRequests (flock k fd operation errno0).events = [(fd, req, lock)]
      ∧ ((k.setlk fd req lock).ret < 0 →
          (flock k fd operation errno0).ret = -1
          ∧ (flock k fd operation errno0).errno
              = if band operation LOCK_NB ≠ 0
                    ∧ ((k.setlk fd req lock).errno = EAGAIN ∨ (k.setlk fd req lock).errno = EACCES)
                then EWOULDBLOCK else k.perror "fcntl" (k.setlk fd req lock).errno)
      ∧ (0 ≤ (k.setlk fd req lock).ret → (flock k fd operation errno0).ret = 0) := by
  obtain ⟨ty, hty⟩ := selectType_of_valid h
  refine ⟨_, _, flock_lockRequests k fd operation errno0 ty hty, ?_, ?_⟩
  · intro hlt
    obtain ⟨hret, herr⟩ := flock_outcome k fd operation errno0 ty hty
    exact ⟨by rw [hret, if_pos hlt], herr hlt⟩
  · intro hge
    rw [(flock_outcome k fd operation errno0 ty hty).1, if_neg (not_lt.mpr hge)]

/-- Setting the `LOCK_NB` bit in any operation code leaves the lock types
issued as they are. -/
theorem flock_types_bor_LOCK_NB (k : Kernel) (fd code errno0 : Int) :
    (lockRequests (flock k fd (bor code LOCK_NB) errno0).events).map (fun x => x.2.2.l_type)
      = (lockRequests (flock k fd code errno0).events).map (fun x => x.2.2.l_type) := by
  cases hsel : selectType (band code (bnot LOCK_NB)) with
  | none =>
    have hsel2 : selectType (band (bor code LOCK_NB) (bnot LOCK_NB)) = none := by
      rw [band_bor_LOCK_NB]; exact hsel
    rw [flock_events_none k fd code errno0 hsel, flock_events_none k fd _ errno0 hsel2]
  | some ty =>
    have hsel2 : selectType (band (bor code LOCK_NB) (bnot LOCK_NB)) = some ty := by
      rw [band_bor_LOCK_NB]; exact hsel
    rw [flock_lockRequests k fd code errno0 ty hsel, flock_lockRequests k fd _ errno0 ty hsel2]
    simp only [List.map_cons, List.map_nil]

/-- C3: an operation code that, with `LOCK_NB` masked out, is none of
`LOCK_SH`, `LOCK_EX`, `LOCK_UN` makes `flock` return -1 with `errno = EINVAL`
and without any event: no `F_GETFL` query, no record-lock request, no trace
line. -/
theorem flock_invalid_operation (k : Kernel) (fd operation errno0 : Int)
    (h : band operation (bnot LOCK_NB) ≠ LOCK_SH ∧ band operation (bnot LOCK_NB) ≠ LOCK_EX
      ∧ band operation (bnot LOCK_NB) ≠ LOCK_UN) :
    (flock k fd operation errno0).ret = -1 ∧ (flock k fd operation errno0).errno = EINVAL
      ∧ (flock k fd operation errno0).events = [] := by
  obtain ⟨h1, h2, h3⟩ := h
  simp [flock, selectType, h1, h2, h3]

/-- Witness of C3 at the codes 0, `LOCK_NB`, `LOCK_SH|LOCK_EX` and
`LOCK_SH|16`, the last on a kernel that would fail. -/
theorem flock_invalid_operation_witness :
    flock (kernelOk O_RDWR) 7 0 0 = ⟨-1, EINVAL, []⟩
      ∧ flock (kernelOk O_RDWR) 7 LOCK_NB 0 = ⟨-1, EINVAL, []⟩
      ∧ ((flock (kernelOk O_RDWR) 7 (bor LOCK_SH LOCK_EX) 5).ret = -1
          ∧ (flock (kernelOk O_RDWR) 7 (bor LOCK_SH LOCK_EX) 5).errno = EINVAL
          ∧ (flock (kernelOk O_RDWR) 7 (bor LOCK_SH LOCK_EX) 5).events = [])
      ∧ flock (kernelFail O_RDONLY EACCES) 7 (bor LOCK_SH 16) 0 = ⟨-1, EINVAL, []⟩ :=
  ⟨by decide, by decide,
   flock_invalid_operation (kernelOk O_RDWR) 7 (bor LOCK_SH LOCK_EX) 5 (by decide),
   by decide⟩

/-- C4: for a valid request the lock type issued is `F_WRLCK` for a shared
request on a write-only descriptor, `F_RDLCK` for an exclusive request on a
read-only descriptor, and otherwise the plain mapping of the request; so it is
never `F_RDLCK` on a write-only nor `F_WRLCK` on a read-only descriptor. -/
theorem flock_tie_break (k : Kernel) (fd operation errno0 : Int) (h : ValidOp operation) :
    (lockRequests (flock k fd operation errno0).events).map (fun x => x.2.2.l_type)
      = [if band operation (bnot LOCK_NB) = LOCK_SH then
           (if band (k.getfl fd).ret O_ACCMODE = O_WRONLY then F_WRLCK else F_RDLCK)
         else if band operation (bnot LOCK_NB) = LOCK_EX then
           (if band (k.getfl fd).ret O_ACCMODE = O_RDONLY then F_RDLCK else F_WRLCK)
         else F_UNLCK]
    ∧ ∀ x ∈ lockRequests (flock k fd operation errno0).events,
        ¬ (x.2.2.l_type = F_RDLCK ∧ band (k.getfl fd).ret O_ACCMODE = O_WRONLY)
        ∧ ¬ (x.2.2.l_type = F_WRLCK ∧ band (k.getfl fd).ret O_ACCMODE = O_RDONLY) := by
  rcases h with h | h | h
  · have hty : selectType (band operation (bnot LOCK_NB)) = some F_RDLCK := by rw [h]; rfl
    rw [flock_lockRequests k fd operation errno0 _ hty, h]
    generalize band (k.getfl fd).ret O_ACCMODE = mode
    simp only [tieBreak, LOCK_SH, LOCK_EX, F_RDLCK, F_WRLCK, F_UNLCK, O_WRONLY, O_RDONLY]
    by_cases h1 : mode = 1 <;> by_cases h0 : mode = 0 <;> simp_all
  · have hty : selectType (band operation (bnot LOCK_NB)) = some F_WRLCK := by rw [h]; rfl
    rw [flock_lockRequests k fd operation errno0 _ hty, h]
    generalize band (k.getfl fd).ret O_ACCMODE = mode
    simp only [tieBreak, LOCK_SH, LOCK_EX, F_RDLCK, F_WRLCK, F_UNLCK, O_WRONLY, O_RDONLY]
    by_cases h1 : mode = 1 <;> by_cases h0 : mode = 0 <;> simp_all
  · have hty : selectType (band operation (bnot LOCK_NB)) = some F_UNLCK := by rw [h]; rfl
    rw [flock_lockRequests k fd operation errno0 _ hty, h]
    generalize band (k.getfl fd).ret O_ACCMODE = mode
    simp only [tieBreak, LOCK_SH, LOCK_EX, LOCK_UN, F_RDLCK, F_WRLCK, F_UNLCK, O_WRONLY,
      O_RDONLY]
    by_cases h1 : mode = 1 <;> by_cases h0 : mode = 0 <;> simp_all

/-- Witness of C4: a shared request on a write-only descriptor is issued as a
write lock, an exclusive request on a read-only descriptor as a read lock. -/
theorem flock_tie_break_witness :
    ValidOp LOCK_SH ∧ ValidOp (bor LOCK_EX LOCK_NB)
      ∧ (lockRequests (flock (kernelOk O_WRONLY) 7 LOCK_SH 0).events).map
          (fun x => x.2.2.l_type) = [F_WRLCK]
      ∧ (lockRequests (flock (kernelOk O_RDONLY) 7 (bor LOCK_EX LOCK_NB) 0).events).map
          (fun x => x.2.2.l_type) = [F_RDLCK] :=
  ⟨by decide, by decide,
   (flock_tie_break (kernelOk O_WRONLY) 7 LOCK_SH 0 (by decide)).1,
   (flock_tie_break (kernelOk O_RDONLY) 7 (bor LOCK_EX LOCK_NB) 0 (by decide)).1⟩

/-- C5: for an operation code `LOCK_SH`, `LOCK_EX` or `LOCK_UN`, without and
with `LOCK_NB`, the switch of `flock` selects `F_RDLCK` for shared, `F_WRLCK`
for exclusive and `F_UNLCK` for unlock, and the lock type `flock` then issues is
the access-mode adjustment of exactly that selection: on a read-write
descriptor it is the selection itself.  For every code, setting the `LOCK_NB`
bit changes neither the selection nor the lock type issued. -/
theorem flock_select_type (k : Kernel) (fd operation errno0 : Int)
    (h : operation = LOCK_SH ∨ operation = LOCK_EX ∨ operation = LOCK_UN) :
    selectType (band operation (bnot LOCK_NB))
        = some (if operation = LOCK_SH then F_RDLCK
                else if operation = LOCK_EX then F_WRLCK else F_UNLCK)
    ∧ selectType (band (bor operation LOCK_NB) (bnot LOCK_NB))
        = some (if operation = LOCK_SH then F_RDLCK
                else if operation = LOCK_EX then F_WRLCK else F_UNLCK)
    ∧ (lockRequests (flock k fd operation errno0).events).map (fun x => x.2.2.l_type)
        = [tieBreak (if operation = LOCK_SH then F_RDLCK
                     else if operation = LOCK_EX then F_WRLCK else F_UNLCK)
             (band (k.getfl fd).ret O_ACCMODE)]
    ∧ (lockRequests (flock k fd (bor operation LOCK_NB) errno0).events).map
          (fun x => x.2.2.l_type)
        = [tieBreak (if operation = LOCK_SH then F_RDLCK
                     else if operation = LOCK_EX then F_WRLCK else F_UNLCK)
             (band (k.getfl fd).ret O_ACCMODE)]
    ∧ (band (k.getfl fd).ret O_ACCMODE = O_RDWR →
        (lockRequests (flock k fd operation errno0).events).map (fun x => x.2.2.l_type)
          = [if operation = LOCK_SH then F_RDLCK
             else if operation = LOCK_EX then F_WRLCK else F_UNLCK]
        ∧ (lockRequests (flock k fd (bor operation LOCK_NB) errno0).events).map
              (fun x => x.2.2.l_type)
          = [if operation = LOCK_SH then F_RDLCK
             else if operation = LOCK_EX then F_WRLCK else F_UNLCK])
    ∧ ∀ code : Int,
        selectType (band (bor code LOCK_NB) (bnot LOCK_NB))
            = selectType (band code (bnot LOCK_NB))
        ∧ (lockRequests (flock k fd (bor code LOCK_NB) errno0).events).map
              (fun x => x.2.2.l_type)
            = (lockRequests (flock k fd code errno0).events).map (fun x => x.2.2.l_type) := by
  have hsel : selectType (band operation (bnot LOCK_NB))
      = some (if operation = LOCK_SH then F_RDLCK
              else if operation = LOCK_EX then F_WRLCK else F_UNLCK) := by
    rcases h with rfl | rfl | rfl <;> decide
  have hsel2 : selectType (band (bor operation LOCK_NB) (bnot LOCK_NB))
      = some (if operation = LOCK_SH then F_RDLCK
              else if operation = LOCK_EX then F_WRLCK else F_UNLCK) := by
    rw [band_bor_LOCK_NB]; exact hsel
  have hrw : ∀ ty : Int, (ty = F_RDLCK ∨ ty = F_WRLCK ∨ ty = F_UNLCK) →
      tieBreak ty O_RDWR = ty := by
    rintro ty (rfl | rfl | rfl) <;> decide
  have hty : (if operation = LOCK_SH then F_RDLCK
              else if operation = LOCK_EX then F_WRLCK else F_UNLCK) = F_RDLCK
      ∨ (if operation = LOCK_SH then F_RDLCK
              else if operation = LOCK_EX then F_WRLCK else F_UNLCK) = F_WRLCK
      ∨ (if operation = LOCK_SH then F_RDLCK
              else if operation = LOCK_EX then F_WRLCK else F_UNLCK) = F_UNLCK := by
    rcases h with rfl | rfl | rfl <;> decide
  have h1 := flock_lockRequests k fd operation errno0 _ hsel
  have h2 := flock_lockRequests k fd (bor operation LOCK_NB) errno0 _ hsel2
  refine ⟨hsel, hsel2, ?_, ?_, ?_, ?_⟩
  · rw [h1]; rfl
  · rw [h2]; rfl
  · intro hm
    rw [h1, h2, hm]
    simp only [List.map_cons, List.map_nil, hrw _ hty, and_self]
  · intro code
    exact ⟨by rw [band_bor_LOCK_NB], flock_types_bor_LOCK_NB k fd code errno0⟩

/-- Witness of C5: `LOCK_EX` and `LOCK_EX|LOCK_NB` on a read-write descriptor
are issued as `F_WRLCK`; on a read-only descriptor as the adjustment of
`F_WRLCK`, which is `F_RDLCK`. -/
theorem flock_select_type_witness :
    (LOCK_EX = LOCK_SH ∨ LOCK_EX = LOCK_EX ∨ LOCK_EX = LOCK_UN)
      ∧ selectType (band LOCK_EX (bnot LOCK_NB)) = some F_WRLCK
      ∧ selectType (band (bor LOCK_EX LOCK_NB) (bnot LOCK_NB)) = some F_WRLCK
      ∧ (lockRequests (flock (kernelOk O_RDWR) 7 LOCK_EX 0).events).map
          (fun x => x.2.2.l_type) = [F_WRLCK]
      ∧ (lockRequests (flock (kernelOk O_RDWR) 7 (bor LOCK_EX LOCK_NB) 0).events).map
          (fun x => x.2.2.l_type) = [F_WRLCK]
      ∧ (lockRequests (flock (kernelOk O_RDONLY) 7 LOCK_EX 0).events).map
          (fun x => x.2.2.l_type) = [tieBreak F_WRLCK O_RDONLY]
      ∧ tieBreak F_WRLCK O_RDONLY = F_RDLCK :=
  ⟨by decide,
   (flock_select_type (kernelOk O_RDWR) 7 LOCK_EX 0 (by decide)).1,
   (flock_select_type (kernelOk O_RDWR) 7 LOCK_EX 0 (by decide)).2.1,
   ((flock_select_type (kernelOk O_RDWR) 7 LOCK_EX 0 (by decide)).2.2.2.2.1 (by decide)).1,
   ((flock_select_type (kernelOk O_RDWR) 7 LOCK_EX 0 (by decide)).2.2.2.2.1 (by decide)).2,
   (flock_select_type (kernelOk O_RDONLY) 7 LOCK_EX 0 (by decide)).2.2.1,
   by decide⟩

/-- C6 against the code: a blocking `LOCK_EX` whose record-lock request fails
with `ENOLCK`, while `perror` leaves `EINVAL` in `errno`, returns -1 with
`errno = EINVAL`, not `ENOLCK`; the same holds for the non-blocking request.
The remapped case is not affected: `EACCES` on a non-blocking request gives
`EWOULDBLOCK` whatever `perror` leaves. -/
theorem flock_errno_after_perror :
    (kernelFailPerror O_RDWR ENOLCK EINVAL).setlk 7 F_OFD_SETLKW ⟨F_WRLCK, SEEK_SET, 0, 0, 0⟩
        = ⟨-1, ENOLCK⟩
      ∧ flock (kernelFailPerror O_RDWR ENOLCK EINVAL) 7 LOCK_EX 0
          = ⟨-1, EINVAL,
             [.fcntl_getfl 7,
              .printf 7 (some "LOCK_EX") "" (some "O_RDWR") (some "F_OFD_SETLKW")
                (some "F_WRLCK"),
              .fcntl_lock 7 F_OFD_SETLKW ⟨F_WRLCK, SEEK_SET, 0, 0, 0⟩,
              .perror "fcntl" ENOLCK]⟩
      ∧ (flock (kernelFailPerror O_RDWR ENOLCK EINVAL) 7 LOCK_EX 0).errno ≠ ENOLCK
      ∧ (flock (kernelFailPerror O_RDWR ENOLCK EINVAL) 7 (bor LOCK_EX LOCK_NB) 0).ret = -1
      ∧ (flock (kernelFailPerror O_RDWR ENOLCK EINVAL) 7 (bor LOCK_EX LOCK_NB) 0).errno = EINVAL
      ∧ (flock (kernelFailPerror O_RDWR EACCES EINVAL) 7 (bor LOCK_EX LOCK_NB) 0).errno
          = EWOULDBLOCK
      ∧ (flock (kernelFail O_RDWR ENOLCK) 7 LOCK_EX 0).errno = ENOLCK := by
  decide

/-- C7: for a valid request exactly one record-lock request is issued, on the
descriptor of the caller, with `F_OFD_SETLK` if the `LOCK_NB` bit is set in the
operation code and `F_OFD_SETLKW` if it is not. -/
theorem flock_request_variant (k : Kernel) (fd operation errno0 : Int) (h : ValidOp operation) :
    (lockRequests (flock k fd operation errno0).events).map (fun x => (x.1, x.2.1))
      = [(fd, if band operation LOCK_NB ≠ 0 then F_OFD_SETLK else F_OFD_SETLKW)] := by
  obtain ⟨ty, hty⟩ := selectType_of_valid h
  rw [flock_lockRequests k fd operation errno0 ty hty]
  rfl

/-- Witness of C7: `LOCK_SH|LOCK_NB` goes out as `F_OFD_SETLK`, `LOCK_SH` as
`F_OFD_SETLKW`, both on descriptor 7. -/
theorem flock_request_variant_witness :
    ValidOp (bor LOCK_SH LOCK_NB) ∧ ValidOp LOCK_SH
      ∧ (lockRequests (flock (kernelOk O_RDWR) 7 (bor LOCK_SH LOCK_NB) 0).events).map
          (fun x => (x.1, x.2.1)) = [(7, F_OFD_SETLK)]
      ∧ (lockRequests (flock (kernelFail O_WRONLY EAGAIN) 7 LOCK_SH 0).events).map
          (fun x => (x.1, x.2.1)) = [(7, F_OFD_SETLKW)] :=
  ⟨by decide, by decide,
   flock_request_variant (kernelOk O_RDWR) 7 (bor LOCK_SH LOCK_NB) 0 (by decide),
   flock_request_variant (kernelFail O_WRONLY EAGAIN) 7 LOCK_SH 0 (by decide)⟩

/-- C8: for a valid request the lock description handed to the record-lock
request has `l_whence = SEEK_SET`, `l_start = 0`, `l_len = 0`, `l_pid = 0`.
On a read-only descriptor `LOCK_EX` is issued as `F_OFD_SETLKW` with `F_RDLCK`,
and a following `LOCK_UN` on that descriptor as `F_OFD_SETLKW` with `F_UNLCK`,
both over that same range. -/
theorem flock_whole_file (k : Kernel) (fd operation errno0 : Int) (h : ValidOp operation) :
    (lockRequests (flock k fd operation errno0).events).map
        (fun x => (x.2.2.l_whence, x.2.2.l_start, x.2.2.l_len, x.2.2.l_pid))
      = [(SEEK_SET, 0, 0, 0)]
    ∧ ∀ (k1 k2 : Kernel) (e1 e2 : Int),
        band (k1.getfl fd).ret O_ACCMODE = O_RDONLY →
        lockRequests (flock k1 fd LOCK_EX e1).events
            = [(fd, F_OFD_SETLKW, ⟨F_RDLCK, SEEK_SET, 0, 0, 0⟩)]
        ∧ lockRequests (flock k2 fd LOCK_UN e2).events
            = [(fd, F_OFD_SETLKW, ⟨F_UNLCK, SEEK_SET, 0, 0, 0⟩)] := by
  constructor
  · obtain ⟨ty, hty⟩ := selectType_of_valid h
    rw [flock_lockRequests k fd operation errno0 ty hty]
    rfl
  · intro k1 k2 e1 e2 h1
    have hex : selectType (band LOCK_EX (bnot LOCK_NB)) = some F_WRLCK := by decide
    have hun : selectType (band LOCK_UN (bnot LOCK_NB)) = some F_UNLCK := by decide
    have htb : ∀ mode, tieBreak F_UNLCK mode = F_UNLCK := by
      intro mode
      simp [tieBreak, F_UNLCK, F_RDLCK, F_WRLCK]
    rw [flock_lockRequests k1 fd LOCK_EX e1 _ hex, flock_lockRequests k2 fd LOCK_UN e2 _ hun,
      h1, htb]
    exact ⟨rfl, rfl⟩

/-- Witness of C8 on a read-only descriptor. -/
theorem flock_whole_file_witness :
    ValidOp LOCK_EX
      ∧ (lockRequests (flock (kernelOk O_RDONLY) 7 LOCK_EX 0).events).map
          (fun x => (x.2.2.l_whence, x.2.2.l_start, x.2.2.l_len, x.2.2.l_pid))
        = [(SEEK_SET, 0, 0, 0)]
      ∧ lockRequests (flock (kernelOk O_RDONLY) 7 LOCK_EX 0).events
          = [(7, F_OFD_SETLKW, ⟨F_RDLCK, SEEK_SET, 0, 0, 0⟩)]
      ∧ lockRequests (flock (kernelOk O_RDONLY) 7 LOCK_UN 0).events
          = [(7, F_OFD_SETLKW, ⟨F_UNLCK, SEEK_SET, 0, 0, 0⟩)] :=
  ⟨by decide,
   (flock_whole_file (kernelOk O_RDONLY) 7 LOCK_EX 0 (by decide)).1,
   (flock_whole_file (kernelOk O_RDONLY) 7 LOCK_EX 0 (by decide)).2
     (kernelOk O_RDONLY) (kernelOk O_RDONLY) 0 0 (by decide)⟩

/-! ## The capacity reporter -/

/-- The macro body when the genuine call succeeded or left `errno = 75`, for
fields of 32 or 64 bits. -/
theorem LIMITSIZE_tolerated {α : Type} (func : String) (wFr wBlk : Nat)
    (perror : String → Int → Int)
    (hF : wFr = 32 ∨ wFr = 64) (hB : wBlk = 32 ∨ wBlk = 64)
    (f : α → statbuf → Int → StatOutcome) (arg : α) (buf : statbuf) (errno0 : Int)
    (h : (f arg buf errno0).ret = 0 ∨ (f arg buf errno0).errno = 75) :
    LIMITSIZE func wFr wBlk perror f arg buf errno0
      = { ret := 0, errno := 0,
          buf := { f_bsize := (f arg buf errno0).buf.f_bsize, f_frsize := 4096,
                   f_blocks := 268435455, f_bfree := 268435455, f_bavail := 268435455,
                   other := (f arg buf errno0).buf.other },
          events := [StatEvent.printf func 268435455 268435455 268435455 4096] } := by
  have hc : ¬ ((f arg buf errno0).errno ≠ 75 ∧ (f arg buf errno0).ret ≠ 0) := by
    rintro ⟨h1, h2⟩
    rcases h with h | h
    · exact h2 h
    · exact h1 h
  unfold LIMITSIZE
  simp only [hc, if_false]
  rcases hF with rfl | rfl <;> rcases hB with rfl | rfl <;> rfl

/-- The macro body when the genuine call failed with an `errno` other than 75. -/
theorem LIMITSIZE_failed {α : Type} (func : String) (wFr wBlk : Nat)
    (perror : String → Int → Int)
    (f : α → statbuf → Int → StatOutcome) (arg : α) (buf : statbuf) (errno0 : Int)
    (h : (f arg buf errno0).ret ≠ 0 ∧ (f arg buf errno0).errno ≠ 75) :
    LIMITSIZE func wFr wBlk perror f arg buf errno0
      = { ret := (f arg buf errno0).ret, errno := perror func (f arg buf errno0).errno,
          buf := (f arg buf errno0).buf,
          events := [StatEvent.perror func (f arg buf errno0).errno] } := by
  unfold LIMITSIZE
  simp only [h.1, h.2, ne_eq, not_false_eq_true, and_self, if_true]

/-- Each entry point is the macro at widths of 32 or 64 bits. -/
theorem StatFn.call_eq (fn : StatFn) (abi : Abi) :
    ∃ func wFr wBlk, (wFr = 32 ∨ wFr = 64) ∧ (wBlk = 32 ∨ wBlk = 64)
      ∧ ∀ perror f arg buf errno0,
          fn.call abi perror f arg buf errno0 = LIMITSIZE func wFr wBlk perror f arg buf errno0 := by
  cases fn <;> cases abi <;>
    exact ⟨_, _, _, by simp [Abi.wordBits], by simp [Abi.wordBits], fun _ _ _ _ _ => rfl⟩

/-- C1: when the genuine call returns 0 (whatever `errno` is) or fails with
`errno = 75`, each of the six overrides returns 0 with `errno = 0`, and the
buffer has `f_frsize = 4096` and `f_bfree = f_bavail = f_blocks = 268435455`,
which is `(2^31-1) * 512 / 4096`. -/
theorem stat_override_tolerated (fn : StatFn) (abi : Abi) (perror : String → Int → Int)
    (f : fn.Arg → statbuf → Int → StatOutcome) (arg : fn.Arg) (buf : statbuf) (errno0 : Int)
    (h : (f arg buf errno0).ret = 0
      ∨ ((f arg buf errno0).ret ≠ 0 ∧ (f arg buf errno0).errno = 75)) :
    (fn.call abi perror f arg buf errno0).ret = 0
      ∧ (fn.call abi perror f arg buf errno0).errno = 0
      ∧ (fn.call abi perror f arg buf errno0).buf.f_frsize = 4096
      ∧ (fn.call abi perror f arg buf errno0).buf.f_bfree = 268435455
      ∧ (fn.call abi perror f arg buf errno0).buf.f_bavail = 268435455
      ∧ (fn.call abi perror f arg buf errno0).buf.f_blocks = 268435455
      ∧ (fn.call abi perror f arg buf errno0).buf.f_blocks = (2 ^ 31 - 1) * 512 / 4096 := by
  obtain ⟨func, wFr, wBlk, hF, hB, hcall⟩ := StatFn.call_eq fn abi
  have h' : (f arg buf errno0).ret = 0 ∨ (f arg buf errno0).errno = 75 :=
    h.imp id (fun h => h.2)
  rw [hcall, LIMITSIZE_tolerated func wFr wBlk perror hF hB f arg buf errno0 h']
  exact ⟨rfl, rfl, rfl, rfl, rfl, rfl, by norm_num⟩

/-- Witness of C1: the 32-bit `statvfs` after a genuine call that failed with
`errno = 75` on a large filesystem. -/
theorem stat_override_tolerated_witness :
    (((genuineConst ⟨-1, 75, bigBuf⟩ : String → statbuf → Int → StatOutcome) "/" zeroBuf 0).ret
          = 0
        ∨ (((genuineConst ⟨-1, 75, bigBuf⟩ : String → statbuf → Int → StatOutcome)
              "/" zeroBuf 0).ret ≠ 0
          ∧ ((genuineConst ⟨-1, 75, bigBuf⟩ : String → statbuf → Int → StatOutcome)
              "/" zeroBuf 0).errno = 75))
      ∧ (statvfs Abi.m32 perrorQuiet (genuineConst ⟨-1, 75, bigBuf⟩) "/" zeroBuf 0).ret = 0
      ∧ (statvfs Abi.m32 perrorQuiet (genuineConst ⟨-1, 75, bigBuf⟩) "/" zeroBuf 0).errno = 0
      ∧ (statvfs Abi.m32 perrorQuiet (genuineConst ⟨-1, 75, bigBuf⟩) "/" zeroBuf 0).buf.f_frsize = 4096
      ∧ (statvfs Abi.m32 perrorQuiet (genuineConst ⟨-1, 75, bigBuf⟩) "/" zeroBuf 0).buf.f_bfree = 268435455
      ∧ (statvfs Abi.m32 perrorQuiet (genuineConst ⟨-1, 75, bigBuf⟩) "/" zeroBuf 0).buf.f_bavail = 268435455
      ∧ (statvfs Abi.m32 perrorQuiet (genuineConst ⟨-1, 75, bigBuf⟩) "/" zeroBuf 0).buf.f_blocks = 268435455
      ∧ (statvfs Abi.m32 perrorQuiet (genuineConst ⟨-1, 75, bigBuf⟩) "/" zeroBuf 0).buf.f_blocks
          = (2 ^ 31 - 1) * 512 / 4096 :=
  ⟨by decide,
   stat_override_tolerated StatFn.statvfs Abi.m32 perrorQuiet (genuineConst ⟨-1, 75, bigBuf⟩)
     (show String from "/") zeroBuf 0 (by decide)⟩

/-- On the failed path every entry point returns the genuine return value
and leaves the buffer as the genuine call did; `errno` is what `perror` left. -/
theorem StatFn.call_failed (fn : StatFn) (abi : Abi) (perror : String → Int → Int)
    (f : fn.Arg → statbuf → Int → StatOutcome) (arg : fn.Arg) (buf : statbuf) (errno0 : Int)
    (h : (f arg buf errno0).ret ≠ 0 ∧ (f arg buf errno0).errno ≠ 75) :
    (fn.call abi perror f arg buf errno0).ret = (f arg buf errno0).ret
      ∧ (fn.call abi perror f arg buf errno0).buf = (f arg buf errno0).buf
      ∧ ∃ func, (fn.call abi perror f arg buf errno0).errno
          = perror func (f arg buf errno0).errno := by
  obtain ⟨func, wFr, wBlk, _, _, hcall⟩ := StatFn.call_eq fn abi
  rw [hcall, LIMITSIZE_failed func wFr wBlk perror f arg buf errno0 h]
  exact ⟨rfl, rfl, func, rfl⟩

/-- C2 against the code: `statvfs` on a path whose genuine call fails with
`ENOENT`, while `perror` leaves `EINVAL` in `errno`, returns the genuine -1 and
the genuine buffer but `errno = EINVAL`, not `ENOENT`.  With a `perror` that
leaves `errno` alone the caller sees `ENOENT`. -/
theorem stat_errno_after_perror :
    statvfs Abi.m64 (perrorSets EINVAL) (genuineConst ⟨-1, ENOENT, bigBuf⟩) "/missing" zeroBuf 0
        = ⟨-1, EINVAL, bigBuf, [StatEvent.perror "statvfs" ENOENT]⟩
      ∧ (statvfs Abi.m64 (perrorSets EINVAL) (genuineConst ⟨-1, ENOENT, bigBuf⟩)
          "/missing" zeroBuf 0).errno ≠ ENOENT
      ∧ (fstatfs64 Abi.m32 (perrorSets EINVAL) (genuineConst ⟨-1, 9, bigBuf⟩) 3 zeroBuf 0).errno
          = EINVAL
      ∧ statvfs Abi.m64 perrorQuiet (genuineConst ⟨-1, ENOENT, bigBuf⟩) "/missing" zeroBuf 0
        = ⟨-1, ENOENT, bigBuf, [StatEvent.perror "statvfs" ENOENT]⟩ := by
  decide

/-- C9: the block count written, `((2^31-1) << 9) / 4096` taken in 64 bits, is
the largest `n` with `n * 4096 ≤ (2^31-1) * 512`; so whatever the genuine call
left in the buffer, `f_blocks * f_frsize` after the override is positive and
below `2^31 * 512`. -/
theorem block_count_largest (fn : StatFn) (abi : Abi) (perror : String → Int → Int)
    (f : fn.Arg → statbuf → Int → StatOutcome) (arg : fn.Arg) (buf : statbuf) (errno0 : Int)
    (h : (f arg buf errno0).ret = 0 ∨ (f arg buf errno0).errno = 75) :
    (fn.call abi perror f arg buf errno0).buf.f_blocks
        = blockCount (fn.call abi perror f arg buf errno0).buf.f_frsize
      ∧ (fn.call abi perror f arg buf errno0).buf.f_blocks = ((2 ^ 31 - 1) * 2 ^ 9 % 2 ^ 64) / 4096
      ∧ (fn.call abi perror f arg buf errno0).buf.f_blocks * 4096 ≤ (2 ^ 31 - 1) * 512
      ∧ (∀ n : Nat, n * 4096 ≤ (2 ^ 31 - 1) * 512 →
          n ≤ (fn.call abi perror f arg buf errno0).buf.f_blocks)
      ∧ 0 < (fn.call abi perror f arg buf errno0).buf.f_blocks
            * (fn.call abi perror f arg buf errno0).buf.f_frsize
      ∧ (fn.call abi perror f arg buf errno0).buf.f_blocks
            * (fn.call abi perror f arg buf errno0).buf.f_frsize < 2 ^ 31 * 512 := by
  obtain ⟨func, wFr, wBlk, hF, hB, hcall⟩ := StatFn.call_eq fn abi
  rw [hcall, LIMITSIZE_tolerated func wFr wBlk perror hF hB f arg buf errno0 h]
  refine ⟨by show 268435455 = blockCount 4096; decide, by norm_num, by norm_num, ?_,
    by norm_num, by norm_num⟩
  intro n hn
  show n ≤ 268435455
  omega

/-- Witness of C9: `statvfs64` on a filesystem of `2 ^ 33` blocks of 128 KiB. -/
theorem block_count_largest_witness :
    (((genuineConst ⟨0, 0, bigBuf⟩ : String → statbuf → Int → StatOutcome) "/" zeroBuf 0).ret = 0
        ∨ ((genuineConst ⟨0, 0, bigBuf⟩ : String → statbuf → Int → StatOutcome)
            "/" zeroBuf 0).errno = 75)
      ∧ (statvfs64 Abi.m32 perrorQuiet (genuineConst ⟨0, 0, bigBuf⟩) "/" zeroBuf 0).buf.f_blocks
          = blockCount (statvfs64 Abi.m32 perrorQuiet (genuineConst ⟨0, 0, bigBuf⟩) "/" zeroBuf 0).buf.f_frsize
      ∧ (statvfs64 Abi.m32 perrorQuiet (genuineConst ⟨0, 0, bigBuf⟩) "/" zeroBuf 0).buf.f_blocks
          = ((2 ^ 31 - 1) * 2 ^ 9 % 2 ^ 64) / 4096
      ∧ (statvfs64 Abi.m32 perrorQuiet (genuineConst ⟨0, 0, bigBuf⟩) "/" zeroBuf 0).buf.f_blocks * 4096
          ≤ (2 ^ 31 - 1) * 512
      ∧ (∀ n : Nat, n * 4096 ≤ (2 ^ 31 - 1) * 512 →
          n ≤ (statvfs64 Abi.m32 perrorQuiet (genuineConst ⟨0, 0, bigBuf⟩) "/" zeroBuf 0).buf.f_blocks)
      ∧ 0 < (statvfs64 Abi.m32 perrorQuiet (genuineConst ⟨0, 0, bigBuf⟩) "/" zeroBuf 0).buf.f_blocks
            * (statvfs64 Abi.m32 perrorQuiet (genuineConst ⟨0, 0, bigBuf⟩) "/" zeroBuf 0).buf.f_frsize
      ∧ (statvfs64 Abi.m32 perrorQuiet (genuineConst ⟨0, 0, bigBuf⟩) "/" zeroBuf 0).buf.f_blocks
            * (statvfs64 Abi.m32 perrorQuiet (genuineConst ⟨0, 0, bigBuf⟩) "/" zeroBuf 0).buf.f_frsize
          < 2 ^ 31 * 512 :=
  ⟨by decide,
   block_count_largest StatFn.statvfs64 Abi.m32 perrorQuiet (genuineConst ⟨0, 0, bigBuf⟩)
     (show String from "/") zeroBuf 0 (by decide)⟩

/-- C10 as stated fails: after the 32-bit `statvfs` override of a successful
genuine call, `f_blocks * f_frsize` is not below `2^31`, and taken modulo
`2^32` it is not the product. -/
theorem product_exceeds_int32 :
    (statvfs Abi.m32 perrorQuiet (genuineConst ⟨0, 0, bigBuf⟩) "/" zeroBuf 0).ret = 0
      ∧ ¬ ((statvfs Abi.m32 perrorQuiet (genuineConst ⟨0, 0, bigBuf⟩) "/" zeroBuf 0).buf.f_blocks
            * (statvfs Abi.m32 perrorQuiet (genuineConst ⟨0, 0, bigBuf⟩) "/" zeroBuf 0).buf.f_frsize
          < 2 ^ 31)
      ∧ ((statvfs Abi.m32 perrorQuiet (genuineConst ⟨0, 0, bigBuf⟩) "/" zeroBuf 0).buf.f_blocks
            * (statvfs Abi.m32 perrorQuiet (genuineConst ⟨0, 0, bigBuf⟩) "/" zeroBuf 0).buf.f_frsize)
          % 2 ^ 32
        ≠ (statvfs Abi.m32 perrorQuiet (genuineConst ⟨0, 0, bigBuf⟩) "/" zeroBuf 0).buf.f_blocks
            * (statvfs Abi.m32 perrorQuiet (genuineConst ⟨0, 0, bigBuf⟩) "/" zeroBuf 0).buf.f_frsize := by
  decide

/-- C10, amended: the block size and each block count written by the override
are below `2^31`, and each block count times the block size is `2^40 - 4096`,
which is below `2^31 * 512`: counted in units of 512 bytes the capacity is
below `2^31`. -/
theorem product_within_sector_envelope (fn : StatFn) (abi : Abi) (perror : String → Int → Int)
    (f : fn.Arg → statbuf → Int → StatOutcome) (arg : fn.Arg) (buf : statbuf) (errno0 : Int)
    (h : (f arg buf errno0).ret = 0 ∨ (f arg buf errno0).errno = 75) :
    (fn.call abi perror f arg buf errno0).buf.f_frsize < 2 ^ 31
      ∧ (fn.call abi perror f arg buf errno0).buf.f_blocks < 2 ^ 31
      ∧ (fn.call abi perror f arg buf errno0).buf.f_bfree < 2 ^ 31
      ∧ (fn.call abi perror f arg buf errno0).buf.f_bavail < 2 ^ 31
      ∧ (fn.call abi perror f arg buf errno0).buf.f_blocks
          * (fn.call abi perror f arg buf errno0).buf.f_frsize = 2 ^ 40 - 4096
      ∧ (fn.call abi perror f arg buf errno0).buf.f_bfree
          * (fn.call abi perror f arg buf errno0).buf.f_frsize = 2 ^ 40 - 4096
      ∧ (fn.call abi perror f arg buf errno0).buf.f_bavail
          * (fn.call abi perror f arg buf errno0).buf.f_frsize = 2 ^ 40 - 4096
      ∧ 2 ^ 40 - 4096 < 2 ^ 31 * 512
      ∧ ((fn.call abi perror f arg buf errno0).buf.f_blocks
          * (fn.call abi perror f arg buf errno0).buf.f_frsize) / 512 < 2 ^ 31 := by
  obtain ⟨func, wFr, wBlk, hF, hB, hcall⟩ := StatFn.call_eq fn abi
  rw [hcall, LIMITSIZE_tolerated func wFr wBlk perror hF hB f arg buf errno0 h]
  refine ⟨?_, ?_, ?_, ?_, ?_, ?_, ?_, ?_, ?_⟩ <;> norm_num

/-- Witness of the amended C10 on the 64-bit `statfs`. -/
theorem product_within_sector_envelope_witness :
    (((genuineConst ⟨0, 0, bigBuf⟩ : String → statbuf → Int → StatOutcome) "/" zeroBuf 0).ret = 0
        ∨ ((genuineConst ⟨0, 0, bigBuf⟩ : String → statbuf → Int → StatOutcome)
            "/" zeroBuf 0).errno = 75)
      ∧ (statfs Abi.m64 perrorQuiet (genuineConst ⟨0, 0, bigBuf⟩) "/" zeroBuf 0).buf.f_blocks
          * (statfs Abi.m64 perrorQuiet (genuineConst ⟨0, 0, bigBuf⟩) "/" zeroBuf 0).buf.f_frsize
        = 2 ^ 40 - 4096
      ∧ ((statfs Abi.m64 perrorQuiet (genuineConst ⟨0, 0, bigBuf⟩) "/" zeroBuf 0).buf.f_blocks
          * (statfs Abi.m64 perrorQuiet (genuineConst ⟨0, 0, bigBuf⟩) "/" zeroBuf 0).buf.f_frsize) / 512
        < 2 ^ 31 :=
  ⟨by decide,
   (product_within_sector_envelope StatFn.statfs Abi.m64 perrorQuiet (genuineConst ⟨0, 0, bigBuf⟩)
     (show String from "/") zeroBuf 0 (by decide)).2.2.2.2.1,
   (product_within_sector_envelope StatFn.statfs Abi.m64 perrorQuiet (genuineConst ⟨0, 0, bigBuf⟩)
     (show String from "/") zeroBuf 0 (by decide)).2.2.2.2.2.2.2.2⟩

end FakeFlock
